import Mathlib

/-!
Verification of the phone-bridge repository's core: the subprocess
streaming-result pipeline (`claude_runner.py`) and the outbound message
chunking/overflow algorithm (`message_sender.py`).

The Python code is shallowly embedded: dictionaries produced by
`json.loads` become the inductive `Json`, the mutable `_overflow` dict
becomes an explicit map passed in and out, and the subprocess becomes an
explicit behaviour record (its stdout lines, stderr text and wait
outcome).  Places where CPython would raise an exception are modelled
with `Except`, carrying the exception message, because `run_streaming`
catches all exceptions in one handler and turns them into an error
result.
-/

namespace PB

/-- A decoded JSON value, the result of Python's `json.loads`.
Numbers are carried as their source literal text (`num "0.01"`): the
claims under verification never depend on numeric values, and Python's
float normalisation is floating-point behaviour that is out of scope.
Object fields are kept in parse order; lookups take the last binding,
as a Python dict built by `json.loads` keeps the last duplicate key. -/
inductive Json where
  | null
  | bool (b : Bool)
  | num (raw : String)
  | str (s : String)
  | arr (elems : List Json)
  | obj (fields : List (String × Json))

/-- Whitespace skipped by the JSON grammar (RFC 8259, as in `json.loads`). -/
def jsonWs (c : Char) : Bool :=
  c = ' ' || c = '\t' || c = '\n' || c = '\r'

/-- The whitespace set of Python's `str.strip` / `rstrip` / `lstrip`
(ASCII part; exotic unicode spaces are not modelled). -/
def pyIsSpace (c : Char) : Bool :=
  c = ' ' || c = '\t' || c = '\n' || c = '\r' || c = '\x0b' || c = '\x0c'

/-- Python `lstrip()` on a character list. -/
def pyLstripL (cs : List Char) : List Char := cs.dropWhile pyIsSpace

/-- Python `rstrip()` on a character list. -/
def pyRstripL (cs : List Char) : List Char := (cs.reverse.dropWhile pyIsSpace).reverse

/-- Python `str.strip()`. -/
def pyStrip (s : String) : String := String.mk (pyLstripL (pyRstripL s.data))

/-- Python slicing `s[:n]`, counting characters. -/
def pyTake (s : String) (n : Nat) : String := String.mk (s.data.take n)

/-- A single-quote character (spelled via its code point to keep string
literals quote-free). -/
def sq : String := String.mk [Char.ofNat 39]

def hexVal (c : Char) : Option Nat :=
  if c.isDigit then some (c.toNat - 48)
  else if 'a' ≤ c && c ≤ 'f' then some (c.toNat - 87)
  else if 'A' ≤ c && c ≤ 'F' then some (c.toNat - 55)
  else none

/-- JSON string body parser (after the opening quote): handles the
escape sequences accepted by `json.loads`.  Lone-surrogate `\uXXXX`
values are outside Lean's `Char` and collapse to `Char.ofNat`'s default;
no claim exercises them. -/
def parseJStringAux : List Char → List Char → Option (String × List Char)
  | _, [] => none
  | acc, c :: rest =>
    if c = '"' then some (String.mk acc.reverse, rest)
    else if c = '\\' then
      match rest with
      | [] => none
      | e :: rest2 =>
        if e = '"' then parseJStringAux ('"' :: acc) rest2
        else if e = '\\' then parseJStringAux ('\\' :: acc) rest2
        else if e = '/' then parseJStringAux ('/' :: acc) rest2
        else if e = 'b' then parseJStringAux ('\x08' :: acc) rest2
        else if e = 'f' then parseJStringAux ('\x0c' :: acc) rest2
        else if e = 'n' then parseJStringAux ('\n' :: acc) rest2
        else if e = 'r' then parseJStringAux ('\r' :: acc) rest2
        else if e = 't' then parseJStringAux ('\t' :: acc) rest2
        else if e = 'u' then
          match rest2 with
          | h1 :: h2 :: h3 :: h4 :: rest3 =>
            match hexVal h1, hexVal h2, hexVal h3, hexVal h4 with
            | some a, some b, some c2, some d =>
              parseJStringAux (Char.ofNat (((a * 16 + b) * 16 + c2) * 16 + d) :: acc) rest3
            | _, _, _, _ => none
          | _ => none
        else none
    else if c.toNat < 32 then none
    else parseJStringAux (c :: acc) rest

def digitSpan (cs : List Char) : List Char × List Char :=
  (cs.takeWhile Char.isDigit, cs.dropWhile Char.isDigit)

/-- JSON number token, strict as in `json.loads` (no leading zeros, a
fraction or exponent must have digits).  The raw literal is returned. -/
def parseNumber (cs : List Char) : Option (String × List Char) :=
  let signAndRest : List Char × List Char :=
    match cs with
    | '-' :: r => (['-'], r)
    | _ => ([], cs)
  let sign := signAndRest.1
  let (ip, cs2) := digitSpan signAndRest.2
  if ip.isEmpty then none
  else if 1 < ip.length && ip.headD 'x' = '0' then none
  else
    let fracRes : Option (List Char × List Char) :=
      match cs2 with
      | '.' :: r =>
        let (ds, r2) := digitSpan r
        if ds.isEmpty then none else some ('.' :: ds, r2)
      | _ => some ([], cs2)
    match fracRes with
    | none => none
    | some (fp, cs3) =>
      let expRes : Option (List Char × List Char) :=
        match cs3 with
        | e :: r =>
          if e = 'e' || e = 'E' then
            let sgnAndRest : List Char × List Char :=
              match r with
              | s :: r2 => if s = '+' || s = '-' then ([s], r2) else ([], r)
              | [] => ([], r)
            let (ds, r2) := digitSpan sgnAndRest.2
            if ds.isEmpty then none else some (e :: (sgnAndRest.1 ++ ds), r2)
          else some ([], cs3)
        | [] => some ([], cs3)
      match expRes with
      | none => none
      | some (ep, cs4) => some (String.mk (sign ++ ip ++ fp ++ ep), cs4)

mutual

/-- Fuel-indexed JSON value parser; `parseJson` supplies fuel
`length + 1`, which dominates the recursion depth. `NaN`/`Infinity`
are accepted (as `json.loads` does by default) as float literals. -/
def parseValue : Nat → List Char → Option (Json × List Char)
  | 0, _ => none
  | fuel + 1, cs =>
    match cs.dropWhile jsonWs with
    | 'n' :: 'u' :: 'l' :: 'l' :: rest => some (Json.null, rest)
    | 't' :: 'r' :: 'u' :: 'e' :: rest => some (Json.bool true, rest)
    | 'f' :: 'a' :: 'l' :: 's' :: 'e' :: rest => some (Json.bool false, rest)
    | 'N' :: 'a' :: 'N' :: rest => some (Json.num ("nan"), rest)
    | 'I' :: 'n' :: 'f' :: 'i' :: 'n' :: 'i' :: 't' :: 'y' :: rest =>
      some (Json.num ("inf"), rest)
    | '-' :: 'I' :: 'n' :: 'f' :: 'i' :: 'n' :: 'i' :: 't' :: 'y' :: rest =>
      some (Json.num ("-inf"), rest)
    | '"' :: rest => (parseJStringAux [] rest).map (fun p => (Json.str p.1, p.2))
    | '[' :: rest =>
      match rest.dropWhile jsonWs with
      | ']' :: rest2 => some (Json.arr [], rest2)
      | _ => (parseElems fuel rest []).map (fun p => (Json.arr p.1, p.2))
    | '\x7b' :: rest =>
      match rest.dropWhile jsonWs with
      | '\x7d' :: rest2 => some (Json.obj [], rest2)
      | _ => (parseMembers fuel rest []).map (fun p => (Json.obj p.1, p.2))
    | other => (parseNumber other).map (fun p => (Json.num p.1, p.2))

def parseElems : Nat → List Char → List Json → Option (List Json × List Char)
  | 0, _, _ => none
  | fuel + 1, cs, acc =>
    match parseValue fuel cs with
    | none => none
    | some (v, rest) =>
      match rest.dropWhile jsonWs with
      | ',' :: rest2 => parseElems fuel rest2 (acc ++ [v])
      | ']' :: rest2 => some (acc ++ [v], rest2)
      | _ => none

def parseMembers : Nat → List Char → List (String × Json) →
    Option (List (String × Json) × List Char)
  | 0, _, _ => none
  | fuel + 1, cs, acc =>
    match cs.dropWhile jsonWs with
    | '"' :: rest =>
      match parseJStringAux [] rest with
      | none => none
      | some (k, rest2) =>
        match rest2.dropWhile jsonWs with
        | ':' :: rest3 =>
          match parseValue fuel rest3 with
          | none => none
          | some (v, rest4) =>
            match rest4.dropWhile jsonWs with
            | ',' :: rest5 => parseMembers fuel rest5 (acc ++ [(k, v)])
            | '\x7d' :: rest5 => some (acc ++ [(k, v)], rest5)
            | _ => none
        | _ => none
    | _ => none

end

/-- `json.loads` on one stream line: a value followed only by
whitespace, else a decode failure (`none`). -/
def parseJson (s : String) : Option Json :=
  match parseValue (s.length + 1) s.data with
  | some (j, rest) => if (rest.dropWhile jsonWs).isEmpty then some j else none
  | none => none

/-! ### Python `str.rfind` -/

/-- Does `sub` occur in `text` starting at index `i` (fully inside `text`)? -/
def matchAt (sub text : List Char) (i : Nat) : Bool :=
  decide ((text.drop i).take sub.length = sub)

/-- Scan candidate start positions `i, i-1, …, 0` for the last match. -/
def pyRfindAux (sub text : List Char) : Nat → Option Nat
  | 0 => if matchAt sub text 0 then some 0 else none
  | i + 1 => if matchAt sub text (i + 1) then some (i + 1) else pyRfindAux sub text i

/-- Python `text.rfind(sub, 0, endPos)`: the highest index at which
`sub` is contained within `text[0:endPos]`; `none` for CPython's `-1`. -/
def pyRfind (sub text : List Char) (endPos : Nat) : Option Nat :=
  let e := min endPos text.length
  if sub.length ≤ e then pyRfindAux sub text (e - sub.length) else none

/-- `os.path.basename` (posixpath: everything after the last slash). -/
def pyBasename (p : String) : String :=
  match pyRfind [('/' : Char)] p.data p.data.length with
  | none => p
  | some i => String.mk (p.data.drop (i + 1))

/-- `os.path.dirname` (posixpath: text before the last slash, with
trailing slashes stripped unless the head is all slashes). -/
def pyDirname (p : String) : String :=
  match pyRfind [('/' : Char)] p.data p.data.length with
  | none => ""
  | some i =>
    let head := p.data.take (i + 1)
    if head.all (fun c => c = '/') then String.mk head
    else String.mk (head.reverse.dropWhile (fun c => c = '/')).reverse

/-! ### Python value rendering and dictionary access -/

mutual

/-- `repr()` of a decoded JSON value, used by `str()` on containers.
String escaping inside `repr` and float normalisation are not modelled
(no claim renders a container or a float). -/
def pyRepr : Json → String
  | Json.null => "None"
  | Json.bool true => "True"
  | Json.bool false => "False"
  | Json.num raw => raw
  | Json.str s => sq ++ s ++ sq
  | Json.arr xs => "[" ++ String.intercalate (", ") (pyReprList xs) ++ "]"
  | Json.obj fs => "\x7b" ++ String.intercalate (", ") (pyReprFields fs) ++ "\x7d"

def pyReprList : List Json → List String
  | [] => []
  | x :: xs => pyRepr x :: pyReprList xs

def pyReprFields : List (String × Json) → List String
  | [] => []
  | kv :: fs => (sq ++ kv.1 ++ sq ++ ": " ++ pyRepr kv.2) :: pyReprFields fs

end

/-- `str()` of a decoded JSON value, as an f-string interpolates it. -/
def pyStr : Json → String
  | Json.str s => s
  | j => pyRepr j

/-- The Python type name of a decoded JSON value (for exception text). -/
def pyTypeName : Json → String
  | Json.null => "NoneType"
  | Json.bool _ => "bool"
  | Json.str _ => "str"
  | Json.arr _ => "list"
  | Json.obj _ => "dict"
  | Json.num raw =>
    if raw.data.any (fun c => c = '.' || c = 'e' || c = 'E' || c = 'n' || c = 'i')
    then "float" else "int"

/-- Message of the `AttributeError` raised by `v.get(...)` on a non-dict. -/
def pyAttrMsg (tname attr : String) : String :=
  sq ++ tname ++ sq ++ " object has no attribute " ++ sq ++ attr ++ sq

/-- `dict.get(k)` on a dict built by `json.loads`: the last binding of
`k` wins (later duplicate keys overwrite earlier ones). -/
def dictGet (fields : List (String × Json)) (k : String) : Option Json :=
  (fields.reverse.find? (fun kv => kv.1 == k)).map (fun kv => kv.2)

/-- Python `==` between a looked-up value and a string literal
(false, not an error, when the value is missing or not a string). -/
def optIsStr (o : Option Json) (t : String) : Bool :=
  match o with
  | some (Json.str s) => s == t
  | _ => false

/-- Python truthiness of a decoded JSON value. -/
def pyNumIsZero (raw : String) : Bool :=
  let mantissa := ((raw.splitOn ("e")).headD raw)
  let mantissa2 := ((mantissa.splitOn ("E")).headD mantissa)
  mantissa2.data.all (fun c => c = '0' || c = '.' || c = '-' || c = '+')

def pyFalsy : Json → Bool
  | Json.null => true
  | Json.bool b => !b
  | Json.str s => s.isEmpty
  | Json.num raw => pyNumIsZero raw
  | Json.arr xs => xs.isEmpty
  | Json.obj fs => fs.isEmpty

/-! ### `claude_runner._summarize_tool`

CPython raises (`AttributeError`/`TypeError`) when a tool argument that
gets sliced or path-split is not a string, or when `input_data` is not a
dict; those raises are modelled as `Except.error` carrying the message,
since `run_streaming`'s catch-all handler observes exactly that
message. -/

/-- `input_data.get(k, dflt)`: an `AttributeError` when `input_data`
is not a dict. -/
def getField (input_data : Json) (k : String) (dflt : Json) : Except String Json :=
  match input_data with
  | Json.obj fs => Except.ok ((dictGet fs k).getD dflt)
  | other => Except.error (pyAttrMsg (pyTypeName other) ("get"))

/-- Python slicing `v[:n]` of a decoded value: strings and lists
slice; anything else is a `TypeError`. -/
def pySlice (j : Json) (n : Nat) : Except String Json :=
  match j with
  | Json.str s => Except.ok (Json.str (pyTake s n))
  | Json.arr xs => Except.ok (Json.arr (xs.take n))
  | other =>
    Except.error (sq ++ pyTypeName other ++ sq ++ " object is not subscriptable")

/-- `os.fspath` as called by `os.path.basename`: strings only. -/
def pyFsPath (j : Json) : Except String String :=
  match j with
  | Json.str s => Except.ok s
  | other =>
    Except.error ("expected str, bytes or os.PathLike object, not " ++ pyTypeName other)

/-- The string-tag dispatch of `_summarize_tool` (the Python
`match name:` on a `str`). -/
def summarizeStr (name : String) (input_data : Json) : Except String String :=
  if name = "Read" then do
    let v ← getField input_data ("file_path") (Json.str ("?"))
    let p ← pyFsPath v
    Except.ok ("Reading " ++ pyBasename p)
  else if name = "Write" then do
    let v ← getField input_data ("file_path") (Json.str ("?"))
    let p ← pyFsPath v
    Except.ok ("Writing " ++ pyBasename p)
  else if name = "Edit" then do
    let v ← getField input_data ("file_path") (Json.str ("?"))
    let p ← pyFsPath v
    Except.ok ("Editing " ++ pyBasename p)
  else if name = "Bash" then do
    let v ← getField input_data ("command") (Json.str ("?"))
    let c ← pySlice v 60
    Except.ok ("Running: " ++ pyStr c)
  else if name = "Glob" then do
    let v ← getField input_data ("pattern") (Json.str ("?"))
    Except.ok ("Finding files: " ++ pyStr v)
  else if name = "Grep" then do
    let v ← getField input_data ("pattern") (Json.str ("?"))
    let c ← pySlice v 40
    Except.ok ("Searching: " ++ pyStr c)
  else if name = "WebSearch" then do
    let v ← getField input_data ("query") (Json.str ("?"))
    let c ← pySlice v 50
    Except.ok ("Web search: " ++ pyStr c)
  else if name = "WebFetch" then do
    let v ← getField input_data ("url") (Json.str ("?"))
    let c ← pySlice v 50
    Except.ok ("Fetching: " ++ pyStr c)
  else if name = "NotebookEdit" then do
    let v ← getField input_data ("notebook_path") (Json.str ("?"))
    let p ← pyFsPath v
    Except.ok ("Editing notebook: " ++ pyBasename p)
  else if name = "Task" then do
    -- the default argument input_data.get("prompt", "?")[:40] is
    -- evaluated eagerly, before the lookup of "description"
    let pv ← getField input_data ("prompt") (Json.str ("?"))
    let sp ← pySlice pv 40
    let dv ← getField input_data ("description") sp
    Except.ok ("Agent: " ++ pyStr dv)
  else Except.ok name

/-- `_summarize_tool(name, input_data)`; a non-string `name` falls to
the default case and is rendered by the f-string. -/
def _summarize_tool (name : Json) (input_data : Json) : Except String String :=
  match name with
  | Json.str s => summarizeStr s input_data
  | other => Except.ok (pyStr other)

/-! ### `ClaudeRunner` -/

/-- The mutable state of the `run_streaming` stdout loop: the
accumulated tool summaries, the last `result` event (its dict), and the
running session identifier.  `final_session_id` is a `Json` because
`event.get("session_id", current)` stores whatever the event carried. -/
structure StreamState where
  tool_calls : List String
  result_obj : Option (List (String × Json))
  final_session_id : Json

/-- The result dataclass `ClaudeResult`.  Fields that Python fills
straight from `result_obj.get(...)` keep the decoded value. -/
structure ClaudeResult where
  text : Json
  session_id : Json
  cost_usd : Json := Json.num ("0")
  duration_ms : Json := Json.num ("0")
  is_error : Json := Json.bool false
  stderr : String := ""
  tool_calls : List String := []

/-- Constructor arguments of `ClaudeRunner.__init__`.  The budget is a
rational stand-in for the Python float; only its positivity guard is
observable in the claims (float formatting is not modelled). -/
structure RunnerCfg where
  working_dir : String
  allowed_tools : String
  max_timeout : Nat
  max_budget_usd : Rat
  system_prompt : String

/-- Python iteration `for block in content` over a decoded value:
lists yield elements, strings yield 1-character strings, dicts yield
their keys; scalars raise `TypeError`. -/
def pyIterBlocks : Json → Except String (List Json)
  | Json.arr xs => Except.ok xs
  | Json.str s => Except.ok (s.data.map (fun c => Json.str (String.mk [c])))
  | Json.obj fs => Except.ok (fs.map (fun kv => Json.str kv.1))
  | other => Except.error (sq ++ pyTypeName other ++ sq ++ " object is not iterable")

/-- The `for block in content:` body (appending tool summaries).  An
exception mid-list keeps the summaries appended so far, as the Python
list mutation does. -/
def processBlocks (st : StreamState) :
    List Json → Except (StreamState × String) StreamState
  | [] => Except.ok st
  | b :: bs =>
    match b with
    | Json.obj bf =>
      if optIsStr (dictGet bf ("type")) ("tool_use") then
        let name := (dictGet bf ("name")).getD (Json.str ("?"))
        let input := (dictGet bf ("input")).getD (Json.obj [])
        match _summarize_tool name input with
        | Except.ok summary =>
          processBlocks { st with tool_calls := st.tool_calls ++ [summary] } bs
        | Except.error e => Except.error (st, e)
      else processBlocks st bs
    | other => Except.error (st, pyAttrMsg (pyTypeName other) ("get"))

/-- The `event_type == "assistant"` branch. -/
def assistantBranch (st : StreamState) (fields : List (String × Json)) :
    Except (StreamState × String) StreamState :=
  match (dictGet fields ("message")).getD (Json.obj []) with
  | Json.obj mf =>
    match pyIterBlocks ((dictGet mf ("content")).getD (Json.arr [])) with
    | Except.ok blocks => processBlocks st blocks
    | Except.error e => Except.error (st, e)
  | other => Except.error (st, pyAttrMsg (pyTypeName other) ("get"))

/-- Dispatch on one decoded event (`event.get("type")` …).  A decoded
line that is not a dict raises `AttributeError` at `event.get`, which
the catch-all handler of `run_streaming` turns into an error result. -/
def handleEvent (st : StreamState) (ev : Json) :
    Except (StreamState × String) StreamState :=
  match ev with
  | Json.obj fields =>
    if optIsStr (dictGet fields ("type")) ("system") &&
        optIsStr (dictGet fields ("subtype")) ("init") then
      Except.ok { st with
        final_session_id := (dictGet fields ("session_id")).getD st.final_session_id }
    else if optIsStr (dictGet fields ("type")) ("assistant") then
      assistantBranch st fields
    else if optIsStr (dictGet fields ("type")) ("result") then
      Except.ok { st with
        result_obj := some fields,
        final_session_id := (dictGet fields ("session_id")).getD st.final_session_id }
    else Except.ok st
  | other => Except.error (st, pyAttrMsg (pyTypeName other) ("get"))

/-- One iteration of `for line in proc.stdout`: strip, skip blanks,
decode (a `json.JSONDecodeError` is caught and the line skipped),
dispatch. -/
def processLine (st : StreamState) (line : String) :
    Except (StreamState × String) StreamState :=
  let l := pyStrip line
  if l = "" then Except.ok st
  else
    match parseJson l with
    | none => Except.ok st
    | some ev => handleEvent st ev

/-- The whole stdout loop; an exception aborts the remaining lines. -/
def processLines (st : StreamState) :
    List String → Except (StreamState × String) StreamState
  | [] => Except.ok st
  | l :: ls =>
    match processLine st l with
    | Except.ok st2 => processLines st2 ls
    | Except.error e => Except.error e

/-- What the external subprocess did on one run: whether `Popen`
raised (launch fault, carrying `str(e)`), the lines read from stdout,
the accumulated stderr text, and the outcome of `proc.wait(timeout=…)`
— a normal exit code or `subprocess.TimeoutExpired`. -/
inductive WaitOutcome where
  | exited (code : Int)
  | timedOut

structure ProcBehavior where
  launch_error : Option String
  stdout_lines : List String
  stderr_text : String
  waited : WaitOutcome

/-- `ClaudeRunner._build_cmd`. -/
def _build_cmd (cfg : RunnerCfg) (prompt : String) (session_id : Option String)
    (file_paths : Option (List String)) (streaming : Bool) : List String :=
  let fmt := if streaming then ("stream-json") else ("json")
  let cmd := [("claude"), ("-p"), prompt, ("--output-format"), fmt, ("--verbose")]
  let cmd := cmd ++
    (match file_paths with
     | some ps => if ps = [] then [] else
        (ps.map (fun p => [("--add-dir"), pyDirname p])).flatten
     | none => [])
  let cmd := cmd ++
    (match session_id with
     | some s => if s = "" then [] else [("--resume"), s]
     | none => [])
  let cmd := cmd ++
    (if cfg.allowed_tools = "" then [] else [("--allowedTools"), cfg.allowed_tools])
  let cmd := cmd ++
    (if 0 < cfg.max_budget_usd
     then [("--max-budget-usd"), toString cfg.max_budget_usd] else [])
  let cmd := cmd ++
    (if cfg.system_prompt = "" then [] else
      [("--append-system-prompt"), cfg.system_prompt])
  cmd

/-- The initial loop state: `final_session_id = session_id or ""`. -/
def initState (session_id : Option String) : StreamState :=
  { tool_calls := [], result_obj := none,
    final_session_id := Json.str (session_id.getD ("")) }

/-- `ClaudeRunner.run_streaming`, folded over a `ProcBehavior`.  The
returned `Bool` records whether `proc.kill()` was invoked (only the
`TimeoutExpired` handler does). The `event_queue` side channel carries
the same summaries as `tool_calls` and is not modelled separately. -/
def run_streaming (cfg : RunnerCfg) (prompt : String) (session_id : Option String)
    (file_paths : Option (List String)) (proc : ProcBehavior) :
    ClaudeResult × Bool :=
  let st0 := initState session_id
  match proc.launch_error with
  | some e =>
    ({ text := Json.str ("Error running Claude: " ++ pyTake e 200),
       session_id := st0.final_session_id, is_error := Json.bool true,
       tool_calls := st0.tool_calls }, false)
  | none =>
    match processLines st0 proc.stdout_lines with
    | Except.error (st, e) =>
      ({ text := Json.str ("Error running Claude: " ++ pyTake e 200),
         session_id := st.final_session_id, is_error := Json.bool true,
         tool_calls := st.tool_calls }, false)
    | Except.ok st =>
      match proc.waited with
      | WaitOutcome.timedOut =>
        ({ text := Json.str ("Request timed out after " ++ toString cfg.max_timeout ++
             "s. Try a simpler question or increase CLAUDE_MAX_TIMEOUT."),
           session_id := st.final_session_id, is_error := Json.bool true,
           tool_calls := st.tool_calls }, true)
      | WaitOutcome.exited code =>
        let stderr_output := proc.stderr_text
        if code ≠ 0 then
          let stderr_snippet := pyTake (pyStrip stderr_output) 500
          let error_msg := ("Claude error (exit code " ++ toString code ++ ")") ++
            (if stderr_snippet ≠ "" then ":\n\n" ++ stderr_snippet else "")
          ({ text := Json.str error_msg,
             session_id := st.final_session_id, is_error := Json.bool true,
             stderr := stderr_output, tool_calls := st.tool_calls }, false)
        else
          match st.result_obj with
          | none =>
            ({ text := Json.str ("Error: No result in Claude" ++ sq ++ "s response."),
               session_id := st.final_session_id, is_error := Json.bool true,
               tool_calls := st.tool_calls }, false)
          | some rf =>
            let text0 := (dictGet rf ("result")).getD (Json.str (""))
            let text1 := if pyFalsy text0
              then Json.str ("(Claude returned an empty response)") else text0
            ({ text := text1,
               session_id := (dictGet rf ("session_id")).getD st.final_session_id,
               cost_usd := (dictGet rf ("total_cost_usd")).getD (Json.num ("0")),
               duration_ms := (dictGet rf ("duration_ms")).getD (Json.num ("0")),
               is_error := (dictGet rf ("is_error")).getD (Json.bool false),
               tool_calls := st.tool_calls }, false)

/-- `ClaudeRunner.run` — the "non-streaming fallback" — delegates
wholesale to `run_streaming` (source line 228), with no event queue. -/
def run (cfg : RunnerCfg) (prompt : String) (session_id : Option String)
    (file_paths : Option (List String)) (proc : ProcBehavior) :
    ClaudeResult × Bool :=
  run_streaming cfg prompt session_id file_paths proc

/-- The argument vector `run` hands to the subprocess: `run` calls
`run_streaming`, which builds with `streaming=True` (source lines 112
and 228). -/
def runArgv (cfg : RunnerCfg) (prompt : String) (session_id : Option String)
    (file_paths : Option (List String)) : List String :=
  _build_cmd cfg prompt session_id file_paths true

/-! ### `MessageSender`

Texts are `List Char` (Python `len`/slicing count characters), and the
mutable `self._overflow : dict[int, str]` is an explicit map from chat
id to remainder, passed in and returned. -/

def TELEGRAM_MAX : Nat := 4096

def TRUNCATE_THRESHOLD : Nat := 16000

/-- The fixed marker appended to a truncated text. -/
def truncMarker : List Char := ("\n\n[Truncated — send /more for the rest]").data

/-- The overflow store `self._overflow`. -/
def OverflowMap : Type := Int → Option (List Char)

/-- The delimiter preference order of `_find_break`. -/
def DELIMS : List (List Char) := [("\n\n").data, ("\n").data, (". ").data, (" ").data]

/-- The `for delimiter in [...]` loop body of `_find_break`. -/
def findBreakGo (text : List Char) (max_pos : Nat) : List (List Char) → Nat
  | [] => max_pos
  | d :: ds =>
    match pyRfind d text max_pos with
    | some pos => if max_pos / 2 < pos then pos + d.length else findBreakGo text max_pos ds
    | none => findBreakGo text max_pos ds

/-- `MessageSender._find_break(text, max_pos)`. -/
def _find_break (text : List Char) (max_pos : Nat) : Nat :=
  findBreakGo text max_pos DELIMS

/-- Does a delimiter "qualify" at `(text, max_pos)`: its last occurrence
before `max_pos` lies strictly past `max_pos / 2`?  (`rfind` returning
`-1` never qualifies.) -/
def qual (text : List Char) (max_pos : Nat) (d : List Char) : Bool :=
  match pyRfind d text max_pos with
  | some pos => max_pos / 2 < pos
  | none => false

/-- The counter `"[i/N] "` prepended by `_split` when several chunks
result. -/
def counterTag (i total : Nat) : List Char :=
  (("[") ++ toString i ++ ("/") ++ toString total ++ ("] ")).data

/-- The `while remaining:` loop of `_split`.  The fuel
(`length + 1` at the top call) dominates the iteration count because
every iteration removes at least one character. -/
def splitGo : Nat → List Char → List (List Char) → List (List Char)
  | 0, _, chunks => chunks
  | fuel + 1, remaining, chunks =>
    if remaining = [] then chunks
    else if remaining.length ≤ TELEGRAM_MAX then chunks ++ [remaining]
    else
      let cut := _find_break remaining TELEGRAM_MAX
      splitGo fuel (pyLstripL (remaining.drop cut))
        (chunks ++ [pyRstripL (remaining.take cut)])

/-- `MessageSender._split`. -/
def _split (text : List Char) : List (List Char) :=
  if text.length ≤ TELEGRAM_MAX then [text]
  else
    let chunks := splitGo (text.length + 1) text []
    if 1 < chunks.length then
      chunks.enum.map (fun p => counterTag (p.1 + 1) chunks.length ++ p.2)
    else chunks

/-- `MessageSender._prepare_chunks`; returns the chunk list and the
updated overflow map. -/
def _prepare_chunks (m : OverflowMap) (chat_id : Int) (text : List Char) :
    List (List Char) × OverflowMap :=
  if text.length ≤ TELEGRAM_MAX then ([text], m)
  else if TRUNCATE_THRESHOLD < text.length then
    let cut := _find_break text TRUNCATE_THRESHOLD
    let m2 : OverflowMap := fun k => if k = chat_id then some (text.drop cut) else m k
    (_split (pyRstripL (text.take cut) ++ truncMarker), m2)
  else (_split text, m)

/-- `MessageSender.has_overflow`. -/
def has_overflow (m : OverflowMap) (chat_id : Int) : Bool :=
  (m chat_id).isSome

/-- `self._overflow.pop(chat_id, None)`: the removed value (if any) and
the map afterwards. -/
def popOverflow (m : OverflowMap) (chat_id : Int) : Option (List Char) × OverflowMap :=
  (m chat_id, fun k => if k = chat_id then none else m k)

/-- `MessageSender.send_more`: pop; a missing or empty remainder
returns `False`; otherwise `send` (i.e. `_prepare_chunks`) runs on the
remainder.  Returns (return value, overflow map afterwards, chunks the
nested `send` would transmit). -/
def send_more (m : OverflowMap) (chat_id : Int) :
    Bool × OverflowMap × List (List Char) :=
  match m chat_id with
  | none => (false, m, [])
  | some ov =>
    let m1 : OverflowMap := fun k => if k = chat_id then none else m k
    if ov = [] then (false, m1, [])
    else
      let r := _prepare_chunks m1 chat_id ov
      (true, r.2, r.1)

/-! ### Observers and concrete fixtures used by the theorems -/

/-- The Python loop state at a given point, whether the line completed
normally or raised (the handler closes over the same mutable state). -/
def stateOf : Except (StreamState × String) StreamState → StreamState
  | Except.ok st => st
  | Except.error (st, _) => st

/-- Does a stream line decode to an `init` or `result` event — the only
events that update the running session identifier or the retained
result? -/
def isInitOrResultLine (l : String) : Bool :=
  match parseJson (pyStrip l) with
  | some (Json.obj f) =>
    (optIsStr (dictGet f ("type")) ("system") &&
      optIsStr (dictGet f ("subtype")) ("init")) ||
      optIsStr (dictGet f ("type")) ("result")
  | _ => false

/-- A concrete runner configuration (timeout 77 s, no optional flags). -/
def cfgDefault : RunnerCfg :=
  { working_dir := "/w", allowed_tools := "", max_timeout := 77,
    max_budget_usd := 0, system_prompt := "" }

/-- A well-formed `init` stream line assigning session `"abc"`. -/
def initLineW : String :=
  "\x7b\"type\":\"system\",\"subtype\":\"init\",\"session_id\":\"abc\"\x7d"

/-- A well-formed assistant `tool_use` stream line (a `Glob` call). -/
def toolLineW : String :=
  "\x7b\"type\":\"assistant\",\"message\":\x7b\"content\":[\x7b\"type\":\"tool_use\",\"name\":\"Glob\",\"input\":\x7b\"pattern\":\"x\"\x7d\x7d]\x7d\x7d"

/-- A well-formed terminal `result` line whose result text is empty. -/
def resEmptyLineW : String :=
  "\x7b\"type\":\"result\",\"result\":\"\",\"session_id\":\"s\"\x7d"

/-- A 502-character diagnostic stream whose distinctive tail byte is
`Z` (position 501, beyond the first 500 characters). -/
def stderrC6 : String :=
  String.mk ('H' :: (List.replicate 500 'a' ++ [('Z' : Char)]))

/-- A 50-character `Task` description. -/
def dStr : String := String.mk (List.replicate 50 'd')

/-- The tool names with a dedicated summary shape in `_summarize_tool`. -/
def mappedToolNames : List String :=
  [("Read"), ("Write"), ("Edit"), ("Bash"), ("Glob"), ("Grep"),
   ("WebSearch"), ("WebFetch"), ("NotebookEdit"), ("Task")]

/-! ### Helper lemmas: `rfind` and `_find_break` -/

lemma pyRfindAux_le (sub text : List Char) :
    ∀ i p, pyRfindAux sub text i = some p → p ≤ i := by
  intro i
  induction i with
  | zero =>
    intro p h
    by_cases hm : matchAt sub text 0 = true
    · simp [pyRfindAux, hm] at h
      omega
    · simp [pyRfindAux, hm] at h
  | succ i ih =>
    intro p h
    by_cases hm : matchAt sub text (i + 1) = true
    · simp [pyRfindAux, hm] at h
      omega
    · simp [pyRfindAux, hm] at h
      exact Nat.le_succ_of_le (ih p h)

/-- A successful `rfind(sub, 0, e)` leaves the whole occurrence inside
the prefix of length `e`. -/
lemma pyRfind_bound (sub text : List Char) (e p : Nat)
    (h : pyRfind sub text e = some p) : p + sub.length ≤ e := by
  simp only [pyRfind] at h
  by_cases hle : sub.length ≤ min e text.length
  · rw [if_pos hle] at h
    have h1 := pyRfindAux_le sub text (min e text.length - sub.length) p h
    have h2 : min e text.length ≤ e := Nat.min_le_left _ _
    omega
  · rw [if_neg hle] at h
    exact absurd h (by simp)

lemma findBreakGo_le (t : List Char) (m : Nat) :
    ∀ ds, findBreakGo t m ds ≤ m := by
  intro ds
  induction ds with
  | nil => simp [findBreakGo]
  | cons d ds ih =>
    simp only [findBreakGo]
    cases hr : pyRfind d t m with
    | none => exact ih
    | some pos =>
      dsimp only
      by_cases hq : m / 2 < pos
      · rw [if_pos hq]
        exact pyRfind_bound d t m pos hr
      · rw [if_neg hq]
        exact ih

lemma _find_break_le (t : List Char) (m : Nat) : _find_break t m ≤ m :=
  findBreakGo_le t m DELIMS

lemma findBreakGo_notqual (t : List Char) (m : Nat) :
    ∀ ds, (∀ d ∈ ds, qual t m d = false) → findBreakGo t m ds = m := by
  intro ds
  induction ds with
  | nil => intro _; simp [findBreakGo]
  | cons d ds ih =>
    intro h
    have hd := h d (List.mem_cons_self d ds)
    have hds : ∀ x ∈ ds, qual t m x = false :=
      fun x hx => h x (List.mem_cons_of_mem d hx)
    simp only [findBreakGo]
    cases hr : pyRfind d t m with
    | none => exact ih hds
    | some pos =>
      dsimp only
      simp only [qual, hr, decide_eq_false_iff_not] at hd
      rw [if_neg hd]
      exact ih hds

lemma findBreakGo_qual_gt (t : List Char) (m : Nat) :
    ∀ ds, (∃ d ∈ ds, qual t m d = true) → m / 2 < findBreakGo t m ds := by
  intro ds
  induction ds with
  | nil => rintro ⟨d, hd, _⟩; exact absurd hd (List.not_mem_nil d)
  | cons d0 ds ih =>
    rintro ⟨d, hd, hq⟩
    simp only [findBreakGo]
    rcases List.mem_cons.mp hd with heq | hmem
    · subst heq
      cases hr : pyRfind d t m with
      | none =>
        simp only [qual, hr] at hq
        exact absurd hq (by decide)
      | some pos =>
        dsimp only
        simp only [qual, hr, decide_eq_true_eq] at hq
        rw [if_pos hq]
        omega
    · cases hr : pyRfind d0 t m with
      | none => exact ih ⟨d, hmem, hq⟩
      | some pos =>
        dsimp only
        by_cases hq0 : m / 2 < pos
        · rw [if_pos hq0]; omega
        · rw [if_neg hq0]; exact ih ⟨d, hmem, hq⟩

lemma findBreakGo_first (t : List Char) (m : Nat) :
    ∀ ds d pos, ds.find? (qual t m) = some d → pyRfind d t m = some pos →
      findBreakGo t m ds = pos + d.length := by
  intro ds
  induction ds with
  | nil => intro d pos h _; simp at h
  | cons d0 ds ih =>
    intro d pos hfind hrf
    by_cases hq : qual t m d0 = true
    · rw [List.find?_cons_of_pos _ hq] at hfind
      injection hfind with hd
      subst hd
      simp only [findBreakGo, hrf]
      simp only [qual, hrf, decide_eq_true_eq] at hq
      rw [if_pos hq]
    · rw [List.find?_cons_of_neg _ hq] at hfind
      simp only [findBreakGo]
      cases hr : pyRfind d0 t m with
      | none => exact ih d pos hfind hrf
      | some pos0 =>
        dsimp only
        simp only [qual, hr, decide_eq_true_eq] at hq
        rw [if_neg hq]
        exact ih d pos hfind hrf

/-! ### Helper lemmas: strips, takes, and uniform texts -/

lemma pyTake_length_le (s : String) (n : Nat) : (pyTake s n).length ≤ n := by
  simp only [pyTake, String.length]
  simpa using Nat.min_le_left n s.data.length

lemma pyRstripL_length_le (cs : List Char) : (pyRstripL cs).length ≤ cs.length := by
  simp only [pyRstripL, List.length_reverse]
  calc (List.dropWhile pyIsSpace cs.reverse).length
      ≤ cs.reverse.length := (List.dropWhile_sublist pyIsSpace).length_le
    _ = cs.length := List.length_reverse cs

lemma replicate_ne_nil_of_pos {a : Char} {n : Nat} (h : 0 < n) :
    List.replicate n a ≠ [] := by
  intro he
  have h2 := congrArg List.length he
  simp only [List.length_replicate, List.length_nil] at h2
  omega

lemma dropWhile_head_false {p : Char → Bool} {a : Char} (h : p a = false) (n : Nat) :
    List.dropWhile p (List.replicate n a) = List.replicate n a := by
  cases n with
  | zero => rfl
  | succ n => simp [List.replicate_succ, List.dropWhile_cons, h]

lemma pyRstripL_replicate_a (n : Nat) :
    pyRstripL (List.replicate n 'a') = List.replicate n 'a' := by
  simp only [pyRstripL, List.reverse_replicate]
  rw [dropWhile_head_false (by decide), List.reverse_replicate]

lemma pyLstripL_replicate_a (n : Nat) :
    pyLstripL (List.replicate n 'a') = List.replicate n 'a' :=
  dropWhile_head_false (by decide) n

lemma matchAt_replicate_ne (sub : List Char) (a : Char) (n i : Nat) (c : Char)
    (hc : c ∈ sub) (hne : c ≠ a) : matchAt sub (List.replicate n a) i = false := by
  simp only [matchAt, List.drop_replicate, List.take_replicate,
    decide_eq_false_iff_not]
  intro h
  exact hne (List.eq_of_mem_replicate (h ▸ hc))

lemma pyRfindAux_replicate_none (sub : List Char) (a : Char) (n : Nat) (c : Char)
    (hc : c ∈ sub) (hne : c ≠ a) :
    ∀ i, pyRfindAux sub (List.replicate n a) i = none := by
  intro i
  induction i with
  | zero => simp [pyRfindAux, matchAt_replicate_ne sub a n 0 c hc hne]
  | succ i ih => simp [pyRfindAux, matchAt_replicate_ne sub a n (i + 1) c hc hne, ih]

lemma pyRfind_replicate_none (sub : List Char) (a : Char) (n e : Nat) (c : Char)
    (hc : c ∈ sub) (hne : c ≠ a) :
    pyRfind sub (List.replicate n a) e = none := by
  simp only [pyRfind]
  split
  · exact pyRfindAux_replicate_none sub a n c hc hne _
  · rfl

/-- On a run of `a` characters none of the four break delimiters
occurs, so `_find_break` hard-cuts at `max_pos`. -/
lemma find_break_replicate_a (n m : Nat) :
    _find_break (List.replicate n 'a') m = m := by
  have h1 : pyRfind (("\n\n").data) (List.replicate n 'a') m = none :=
    pyRfind_replicate_none _ 'a' n m '\n' (by decide) (by decide)
  have h2 : pyRfind (("\n").data) (List.replicate n 'a') m = none :=
    pyRfind_replicate_none _ 'a' n m '\n' (by decide) (by decide)
  have h3 : pyRfind ((". ").data) (List.replicate n 'a') m = none :=
    pyRfind_replicate_none _ 'a' n m '.' (by decide) (by decide)
  have h4 : pyRfind ((" ").data) (List.replicate n 'a') m = none :=
    pyRfind_replicate_none _ 'a' n m ' ' (by decide) (by decide)
  simp [_find_break, DELIMS, findBreakGo, h1, h2, h3, h4]

/-! ### Helper lemmas: the stdout loop only writes the session
identifier and the retained result on `init`/`result` events -/

lemma processBlocks_frame (bs : List Json) : ∀ st : StreamState,
    (stateOf (processBlocks st bs)).final_session_id = st.final_session_id ∧
    (stateOf (processBlocks st bs)).result_obj = st.result_obj := by
  induction bs with
  | nil => intro st; exact ⟨rfl, rfl⟩
  | cons b bs ih =>
    intro st
    cases b with
    | obj bf =>
      simp only [processBlocks]
      by_cases ht : optIsStr (dictGet bf ("type")) ("tool_use") = true
      · rw [if_pos ht]
        cases hs : _summarize_tool ((dictGet bf ("name")).getD (Json.str ("?")))
            ((dictGet bf ("input")).getD (Json.obj [])) with
        | ok summary => exact ih _
        | error e => exact ⟨rfl, rfl⟩
      · rw [if_neg ht]
        exact ih st
    | null => exact ⟨rfl, rfl⟩
    | bool v => exact ⟨rfl, rfl⟩
    | num raw => exact ⟨rfl, rfl⟩
    | str s => exact ⟨rfl, rfl⟩
    | arr xs => exact ⟨rfl, rfl⟩

lemma assistantBranch_frame (st : StreamState) (fields : List (String × Json)) :
    (stateOf (assistantBranch st fields)).final_session_id = st.final_session_id ∧
    (stateOf (assistantBranch st fields)).result_obj = st.result_obj := by
  simp only [assistantBranch]
  split
  · split
    · exact processBlocks_frame _ st
    · exact ⟨rfl, rfl⟩
  · exact ⟨rfl, rfl⟩

lemma processLine_frame (st : StreamState) (l : String)
    (h : isInitOrResultLine l = false) :
    (stateOf (processLine st l)).final_session_id = st.final_session_id ∧
    (stateOf (processLine st l)).result_obj = st.result_obj := by
  simp only [processLine]
  by_cases he : pyStrip l = ""
  · rw [if_pos he]; exact ⟨rfl, rfl⟩
  · rw [if_neg he]
    simp only [isInitOrResultLine] at h
    cases hp : parseJson (pyStrip l) with
    | none => exact ⟨rfl, rfl⟩
    | some ev =>
      rw [hp] at h
      cases ev with
      | obj fields =>
        simp only [Bool.or_eq_false_iff, Bool.and_eq_false_iff] at h
        obtain ⟨hinit, hres⟩ := h
        simp only [handleEvent]
        have hinitb : ¬ (optIsStr (dictGet fields ("type")) ("system")
            && optIsStr (dictGet fields ("subtype")) ("init")) = true := by
          rcases hinit with h1 | h1 <;> simp [h1]
        rw [if_neg hinitb]
        by_cases ha : optIsStr (dictGet fields ("type")) ("assistant") = true
        · rw [if_pos ha]
          exact assistantBranch_frame st fields
        · rw [if_neg ha, if_neg (by simp [hres])]
          exact ⟨rfl, rfl⟩
      | null => exact ⟨rfl, rfl⟩
      | bool v => exact ⟨rfl, rfl⟩
      | num raw => exact ⟨rfl, rfl⟩
      | str s => exact ⟨rfl, rfl⟩
      | arr xs => exact ⟨rfl, rfl⟩

lemma processLines_frame (ls : List String) : ∀ st : StreamState,
    (∀ l ∈ ls, isInitOrResultLine l = false) →
    (stateOf (processLines st ls)).final_session_id = st.final_session_id ∧
    (stateOf (processLines st ls)).result_obj = st.result_obj := by
  induction ls with
  | nil => intro st _; exact ⟨rfl, rfl⟩
  | cons l ls ih =>
    intro st h
    have hl := h l (List.mem_cons_self l ls)
    have hls : ∀ x ∈ ls, isInitOrResultLine x = false :=
      fun x hx => h x (List.mem_cons_of_mem l hx)
    have hf := processLine_frame st l hl
    simp only [processLines]
    cases hp : processLine st l with
    | ok st2 =>
      rw [hp] at hf
      have h2 := ih st2 hls
      exact ⟨h2.1.trans hf.1, h2.2.trans hf.2⟩
    | error e =>
      rw [hp] at hf
      cases e with
      | mk st2 msg => exact hf

lemma splitGo_step_long (fuel : Nat) (remaining : List Char)
    (chunks : List (List Char)) (hne : remaining ≠ [])
    (hlong : ¬ (remaining.length ≤ TELEGRAM_MAX)) :
    splitGo (fuel + 1) remaining chunks =
      splitGo fuel (pyLstripL (remaining.drop (_find_break remaining TELEGRAM_MAX)))
        (chunks ++ [pyRstripL (remaining.take (_find_break remaining TELEGRAM_MAX))]) := by
  simp only [splitGo]
  rw [if_neg hne, if_neg hlong]

lemma splitGo_step_short (fuel : Nat) (remaining : List Char)
    (chunks : List (List Char)) (hne : remaining ≠ [])
    (hshort : remaining.length ≤ TELEGRAM_MAX) :
    splitGo (fuel + 1) remaining chunks = chunks ++ [remaining] := by
  simp only [splitGo]
  rw [if_neg hne, if_pos hshort]

/-! ### Claim theorems -/

/-- C7: for every text and maxPos, `_find_break` tries the delimiters
`"\n\n"`, `"\n"`, `". "`, `" "` in that order and accepts the first
whose last occurrence fitting before `maxPos` lies strictly past
`maxPos/2` (returning the position just after that occurrence); when no
delimiter qualifies it returns exactly `maxPos`; when one qualifies the
returned cut is strictly greater than `maxPos/2`; and the returned cut
never exceeds `maxPos`. -/
theorem c7_find_break_contract (t : List Char) (m : Nat) :
    _find_break t m ≤ m ∧
    ((∀ d ∈ DELIMS, qual t m d = false) → _find_break t m = m) ∧
    ((∃ d ∈ DELIMS, qual t m d = true) → m / 2 < _find_break t m) ∧
    (∀ d pos, DELIMS.find? (qual t m) = some d → pyRfind d t m = some pos →
      _find_break t m = pos + d.length) := by
  refine ⟨findBreakGo_le t m DELIMS, findBreakGo_notqual t m DELIMS,
    findBreakGo_qual_gt t m DELIMS, ?_⟩
  intro d pos h1 h2
  exact findBreakGo_first t m DELIMS d pos h1 h2

/-- Witness for C7 at the concrete text `"hello world"` with
`maxPos = 8`: the space delimiter qualifies (last occurrence 5 > 4),
so the cut lies strictly past `8 / 2`. -/
theorem c7_find_break_contract_witness :
    (∃ d ∈ DELIMS, qual (("hello world").data) 8 d = true) ∧
    8 / 2 < _find_break (("hello world").data) 8 :=
  ⟨⟨(" ").data, by decide, by decide⟩,
    (c7_find_break_contract (("hello world").data) 8).2.2.1
      ⟨(" ").data, by decide, by decide⟩⟩

/-- C5: for texts longer than the truncation threshold, `_prepare_chunks`
stores the dropped suffix as the overflow for the conversation key (so
`has_overflow` becomes true), the retained text (rstripped prefix plus
the fixed marker) is at most the threshold plus the marker length,
popping the overflow (the `pop` in `send_more`) yields exactly the
dropped suffix, after which `has_overflow` is false; and `send_more`
on a key with no overflow returns `False` rather than raising. -/
theorem c5_overflow_roundtrip (m : OverflowMap) (chat : Int) (t : List Char)
    (h : TRUNCATE_THRESHOLD < t.length) :
    has_overflow (_prepare_chunks m chat t).2 chat = true ∧
    (_prepare_chunks m chat t).1 =
      _split (pyRstripL (t.take (_find_break t TRUNCATE_THRESHOLD)) ++ truncMarker) ∧
    (pyRstripL (t.take (_find_break t TRUNCATE_THRESHOLD)) ++ truncMarker).length ≤
      TRUNCATE_THRESHOLD + truncMarker.length ∧
    (popOverflow (_prepare_chunks m chat t).2 chat).1 =
      some (t.drop (_find_break t TRUNCATE_THRESHOLD)) ∧
    t.drop (_find_break t TRUNCATE_THRESHOLD) <:+ t ∧
    has_overflow (popOverflow (_prepare_chunks m chat t).2 chat).2 chat = false ∧
    (∀ m0 : OverflowMap, ∀ k : Int, m0 k = none → send_more m0 k = (false, m0, [])) := by
  have hmax : ¬ (t.length ≤ TELEGRAM_MAX) := by
    simp only [TELEGRAM_MAX, TRUNCATE_THRESHOLD] at *
    omega
  have hpc : _prepare_chunks m chat t =
      (_split (pyRstripL (t.take (_find_break t TRUNCATE_THRESHOLD)) ++ truncMarker),
       fun k => if k = chat then some (t.drop (_find_break t TRUNCATE_THRESHOLD))
         else m k) := by
    unfold _prepare_chunks
    rw [if_neg hmax, if_pos h]
  refine ⟨?_, ?_, ?_, ?_, List.drop_suffix _ _, ?_, ?_⟩
  · rw [hpc]; simp [has_overflow]
  · rw [hpc]
  · have h1 : (t.take (_find_break t TRUNCATE_THRESHOLD)).length ≤
        _find_break t TRUNCATE_THRESHOLD := by
      simp [List.length_take]
    have h2 := pyRstripL_length_le (t.take (_find_break t TRUNCATE_THRESHOLD))
    have h3 := _find_break_le t TRUNCATE_THRESHOLD
    simp only [List.length_append]
    omega
  · rw [hpc]; simp [popOverflow]
  · rw [hpc]; simp [popOverflow, has_overflow]
  · intro m0 k h0
    simp only [send_more, h0]

/-- Witness for C5: a 16001-character text exceeds the threshold and
leaves an overflow recorded for chat 7. -/
theorem c5_overflow_roundtrip_witness :
    has_overflow (_prepare_chunks (fun _ => none) 7 (List.replicate 16001 'a')).2 7 = true :=
  (c5_overflow_roundtrip (fun _ => none) 7 (List.replicate 16001 'a')
    (by simp only [List.length_replicate, TRUNCATE_THRESHOLD]; omega)).1

/-- C10: `_prepare_chunks` on a text of at most the truncation
threshold returns the overflow map unchanged (no key is added, removed
or replaced); only longer texts write an overflow, and the remainder
stored is always non-empty. -/
theorem c10_overflow_frame (m : OverflowMap) (chat : Int) (t : List Char) :
    (t.length ≤ TRUNCATE_THRESHOLD → (_prepare_chunks m chat t).2 = m) ∧
    (TRUNCATE_THRESHOLD < t.length →
      (_prepare_chunks m chat t).2 chat =
          some (t.drop (_find_break t TRUNCATE_THRESHOLD)) ∧
        (∀ k : Int, k ≠ chat → (_prepare_chunks m chat t).2 k = m k) ∧
        t.drop (_find_break t TRUNCATE_THRESHOLD) ≠ []) := by
  constructor
  · intro h
    unfold _prepare_chunks
    by_cases h1 : t.length ≤ TELEGRAM_MAX
    · rw [if_pos h1]
    · rw [if_neg h1, if_neg (by omega : ¬ TRUNCATE_THRESHOLD < t.length)]
  · intro h
    have hmax : ¬ (t.length ≤ TELEGRAM_MAX) := by
      simp only [TELEGRAM_MAX, TRUNCATE_THRESHOLD] at *
      omega
    unfold _prepare_chunks
    rw [if_neg hmax, if_pos h]
    refine ⟨by simp, fun k hk => by simp [hk], ?_⟩
    intro hnil
    have h1 := List.drop_eq_nil_iff.mp hnil
    have h2 := _find_break_le t TRUNCATE_THRESHOLD
    omega

/-- Witness for C10: planning a 2-character text touches no overflow
entry. -/
theorem c10_overflow_frame_witness :
    (_prepare_chunks (fun _ => none) 3 (("hi").data)).2 = (fun _ => none) :=
  (c10_overflow_frame (fun _ => none) 3 (("hi").data)).1 (by decide)

/-- C3 (code bug): on a 4097-character text with no break delimiter
(4097 times `a`), the planner returns two chunks and the first,
counter prefix included, is 4102 characters — over the transport
maximum `TELEGRAM_MAX = 4096` that the claim (and the Telegram API)
require.  The `"[i/N] "` prefix is added after splitting to the
maximum, so any hard-cut first chunk overflows by the prefix length. -/
theorem c3_chunk_exceeds_limit :
    (_prepare_chunks (fun _ => none) 0 (List.replicate 4097 'a')).1 =
      [(("[1/2] ").data ++ List.replicate 4096 'a'),
       (("[2/2] ").data ++ List.replicate 1 'a')] ∧
    ((("[1/2] ").data ++ List.replicate 4096 'a').length = 4102) ∧
    TELEGRAM_MAX = 4096 := by
  have hlen : (List.replicate 4097 'a').length = 4097 := by
    simp only [List.length_replicate]
  have hne : ¬ ((List.replicate 4097 'a').length ≤ TELEGRAM_MAX) := by
    simp only [List.length_replicate, TELEGRAM_MAX]
    omega
  have hfb : _find_break (List.replicate 4097 'a') TELEGRAM_MAX = TELEGRAM_MAX :=
    find_break_replicate_a 4097 TELEGRAM_MAX
  have htake : (List.replicate 4097 'a').take TELEGRAM_MAX = List.replicate 4096 'a' := by
    rw [List.take_replicate]
    norm_num [TELEGRAM_MAX]
  have hdrop : (List.replicate 4097 'a').drop TELEGRAM_MAX = List.replicate 1 'a' := by
    rw [List.drop_replicate]
    norm_num [TELEGRAM_MAX]
  have hgo : splitGo (4097 + 1) (List.replicate 4097 'a') [] =
      [List.replicate 4096 'a', List.replicate 1 'a'] := by
    rw [splitGo_step_long 4097 _ _ (replicate_ne_nil_of_pos (by omega)) hne,
      hfb, htake, hdrop, pyRstripL_replicate_a, pyLstripL_replicate_a]
    rw [show (4097 : Nat) = 4096 + 1 from rfl]
    rw [splitGo_step_short 4096 _ _ (replicate_ne_nil_of_pos (by omega))
      (by simp only [List.length_replicate, TELEGRAM_MAX]; omega)]
    rfl
  have hsplit : _split (List.replicate 4097 'a') =
      [(("[1/2] ").data ++ List.replicate 4096 'a'),
       (("[2/2] ").data ++ List.replicate 1 'a')] := by
    unfold _split
    rw [if_neg hne, hlen, hgo]
    rfl
  have hprep : _prepare_chunks (fun _ => none) 0 (List.replicate 4097 'a') =
      (_split (List.replicate 4097 'a'), fun _ => none) := by
    unfold _prepare_chunks
    rw [if_neg hne, if_neg (by simp only [List.length_replicate, TRUNCATE_THRESHOLD]; omega)]
  refine ⟨?_, ?_, rfl⟩
  · rw [hprep, hsplit]
  · simp only [List.length_append, List.length_replicate]
    decide

/-- C1: when the subprocess has not exited by the wait deadline
(`subprocess.TimeoutExpired`, after the stdout stream was drained
without an exception), `proc.kill()` is invoked (the `true` in the
returned pair) and the call returns an error result whose text names
the configured timeout, keeping the session identifier and the tool
summaries captured so far.  The wall-clock bound itself is real time
and is modelled as the `timedOut` wait outcome. -/
theorem c1_timeout_result (cfg : RunnerCfg) (prompt : String)
    (session_id : Option String) (file_paths : Option (List String))
    (proc : ProcBehavior) (st : StreamState)
    (h1 : proc.launch_error = none)
    (h2 : processLines (initState session_id) proc.stdout_lines = Except.ok st)
    (h3 : proc.waited = WaitOutcome.timedOut) :
    run_streaming cfg prompt session_id file_paths proc =
      ({ text := Json.str ("Request timed out after " ++ toString cfg.max_timeout ++
           "s. Try a simpler question or increase CLAUDE_MAX_TIMEOUT."),
         session_id := st.final_session_id, is_error := Json.bool true,
         tool_calls := st.tool_calls }, true) := by
  simp only [run_streaming, h1, h2, h3]

/-- Witness for C1: a run that saw one `init` line (session `"abc"`)
and then timed out returns the timeout error with that session and the
kill flag set. -/
theorem c1_timeout_result_witness :
    run_streaming cfgDefault ("q") (some ("old")) none
      ⟨none, [initLineW], "", WaitOutcome.timedOut⟩ =
      ({ text := Json.str ("Request timed out after " ++ toString cfgDefault.max_timeout ++
           "s. Try a simpler question or increase CLAUDE_MAX_TIMEOUT."),
         session_id := Json.str ("abc"), is_error := Json.bool true,
         tool_calls := [] }, true) :=
  c1_timeout_result cfgDefault ("q") (some ("old")) none
    ⟨none, [initLineW], "", WaitOutcome.timedOut⟩
    { tool_calls := [], result_obj := none, final_session_id := Json.str ("abc") }
    rfl rfl rfl

/-- C2 (code bug): a stream line that is valid JSON but not an object —
here the line `42` — is not dropped: `json.loads` succeeds, then
`event.get("type")` raises `AttributeError`, which the catch-all
handler turns into an error result, aborting the whole run (the
following well-formed `tool_use` line is never processed, so
`tool_calls` stays empty even though that line alone would have
produced `"Finding files: x"`). -/
theorem c2_scalar_line_aborts_run :
    run_streaming cfgDefault ("hi") none none
        ⟨none, [("42"), toolLineW], "", WaitOutcome.exited 0⟩ =
      ({ text := Json.str ("Error running Claude: " ++ pyAttrMsg ("int") ("get")),
         session_id := Json.str (""), is_error := Json.bool true,
         tool_calls := [] }, false) ∧
    (stateOf (processLine (initState none) toolLineW)).tool_calls =
      [("Finding files: x")] :=
  ⟨rfl, rfl⟩

set_option maxRecDepth 8192 in
/-- C6 counterexample: with a 502-character diagnostic stream whose
last character is `Z`, the error text embeds the FIRST 500 characters
(the head `H` followed by 499 `a`) and not the stream's tail — `Z`
never appears in the text, although any 500-character tail of the
stream ends in `Z`. -/
theorem c6_head_not_tail_counterexample :
    (run_streaming cfgDefault ("hi") none none
        ⟨none, [], stderrC6, WaitOutcome.exited 1⟩).1.text =
      Json.str ("Claude error (exit code 1):\n\n" ++
        String.mk ('H' :: List.replicate 499 'a')) ∧
    stderrC6.data.getLast? = some 'Z' ∧
    ('Z' ∉ ("Claude error (exit code 1):\n\n" ++
      String.mk ('H' :: List.replicate 499 'a')).data) := by
  refine ⟨rfl, ?_, by decide⟩
  rfl

/-- C6 (amended): on a non-zero exit the result is an error embedding
the exit code and the first at most 500 characters of the stripped
diagnostic stream (a head, not a tail); the snippet is length-capped
at 500. -/
theorem c6_nonzero_exit_result (cfg : RunnerCfg) (prompt : String)
    (session_id : Option String) (file_paths : Option (List String))
    (proc : ProcBehavior) (st : StreamState) (code : Int)
    (h1 : proc.launch_error = none)
    (h2 : processLines (initState session_id) proc.stdout_lines = Except.ok st)
    (h3 : proc.waited = WaitOutcome.exited code) (h4 : code ≠ 0) :
    run_streaming cfg prompt session_id file_paths proc =
      ({ text := Json.str (("Claude error (exit code " ++ toString code ++ ")") ++
           (if pyTake (pyStrip proc.stderr_text) 500 ≠ "" then
             ":\n\n" ++ pyTake (pyStrip proc.stderr_text) 500 else "")),
         session_id := st.final_session_id, is_error := Json.bool true,
         stderr := proc.stderr_text, tool_calls := st.tool_calls }, false) ∧
    (pyTake (pyStrip proc.stderr_text) 500).length ≤ 500 := by
  constructor
  · simp only [run_streaming, h1, h2, h3]
    rw [if_pos h4]
  · exact pyTake_length_le _ 500

/-- Witness for C6: a subprocess exiting 1 with stderr `boom` yields
an error result whose text contains the exit code and `boom`. -/
theorem c6_nonzero_exit_result_witness :
    run_streaming cfgDefault ("hi") (some ("s0")) none
        ⟨none, [], "boom", WaitOutcome.exited 1⟩ =
      ({ text := Json.str ("Claude error (exit code 1):\n\nboom"),
         session_id := Json.str ("s0"), is_error := Json.bool true,
         stderr := "boom", tool_calls := [] }, false) :=
  (c6_nonzero_exit_result cfgDefault ("hi") (some ("s0")) none
    ⟨none, [], "boom", WaitOutcome.exited 1⟩
    { tool_calls := [], result_obj := none, final_session_id := Json.str ("s0") }
    1 rfl rfl rfl (by decide)).1

/-- C9: if no `init` or `result` event is observed on stdout, then on
every outcome — launch fault, mid-stream exception, timeout, non-zero
exit, or clean exit with no terminal result — the run returns an error
result whose session identifier is exactly the prior one passed in
(the empty string when none was passed), so a failed run never loses
an existing conversation's resumability. -/
theorem c9_error_preserves_session (cfg : RunnerCfg) (prompt : String)
    (session_id : Option String) (file_paths : Option (List String))
    (proc : ProcBehavior)
    (h : ∀ l ∈ proc.stdout_lines, isInitOrResultLine l = false) :
    (run_streaming cfg prompt session_id file_paths proc).1.session_id =
      Json.str (session_id.getD ("")) ∧
    (run_streaming cfg prompt session_id file_paths proc).1.is_error =
      Json.bool true := by
  have hframe := processLines_frame proc.stdout_lines (initState session_id) h
  simp only [run_streaming]
  cases hle : proc.launch_error with
  | some e => exact ⟨rfl, rfl⟩
  | none =>
    cases hpl : processLines (initState session_id) proc.stdout_lines with
    | error p =>
      rw [hpl] at hframe
      cases p with
      | mk st2 msg =>
        simp only [stateOf, initState] at hframe
        exact ⟨hframe.1, rfl⟩
    | ok st =>
      rw [hpl] at hframe
      simp only [stateOf, initState] at hframe
      obtain ⟨hs, hr⟩ := hframe
      cases hw : proc.waited with
      | timedOut => exact ⟨hs, rfl⟩
      | exited code =>
        dsimp only
        by_cases hc : code ≠ 0
        · rw [if_pos hc]
          exact ⟨hs, rfl⟩
        · rw [if_neg hc, hr]
          exact ⟨hs, rfl⟩

/-- Witness for C9: a run whose only stdout line is unparseable garbage
and which exits 0 returns an error result still carrying the prior
session `"s0"`. -/
theorem c9_error_preserves_session_witness :
    (run_streaming cfgDefault ("hi") (some ("s0")) none
        ⟨none, [("garbage")], "", WaitOutcome.exited 0⟩).1.session_id =
      Json.str ("s0") :=
  (c9_error_preserves_session cfgDefault ("hi") (some ("s0")) none
    ⟨none, [("garbage")], "", WaitOutcome.exited 0⟩
    (by intro l hl; simp only [List.mem_singleton] at hl; subst hl; decide)).1

/-- C4 counterexample: `run` does not request the single aggregated
document mode.  The argument vector it produces for a minimal
configuration carries `--output-format stream-json`, and differs from
the vector `_build_cmd` would produce with `streaming=False` (whose
format element is `json`, the aggregated-document mode the claim
asserts). -/
theorem c4_streaming_cmd_counterexample :
    runArgv cfgDefault ("hi") none none =
      [("claude"), ("-p"), ("hi"), ("--output-format"), ("stream-json"), ("--verbose")] ∧
    _build_cmd cfgDefault ("hi") none none false =
      [("claude"), ("-p"), ("hi"), ("--output-format"), ("json"), ("--verbose")] ∧
    runArgv cfgDefault ("hi") none none ≠
      _build_cmd cfgDefault ("hi") none none false := by
  refine ⟨rfl, rfl, ?_⟩
  intro h
  rw [show runArgv cfgDefault ("hi") none none =
      [("claude"), ("-p"), ("hi"), ("--output-format"), ("stream-json"), ("--verbose")]
    from rfl] at h
  rw [show _build_cmd cfgDefault ("hi") none none false =
      [("claude"), ("-p"), ("hi"), ("--output-format"), ("json"), ("--verbose")]
    from rfl] at h
  simp at h

/-- C4 (amended): `run` is a thin delegation to `run_streaming` with no
event queue: it requests line-delimited `stream-json` output (not a
single aggregated document); the terminal result is the last
result-tagged event retained by the streaming loop; and when that
event's text is empty the fixed placeholder is substituted — nothing is
synthesized from assistant-text fragments. -/
theorem c4_run_delegates (cfg : RunnerCfg) (prompt : String)
    (session_id : Option String) (file_paths : Option (List String))
    (proc : ProcBehavior) :
    run cfg prompt session_id file_paths proc =
      run_streaming cfg prompt session_id file_paths proc ∧
    runArgv cfg prompt session_id file_paths =
      _build_cmd cfg prompt session_id file_paths true ∧
    (∀ st rf, proc.launch_error = none →
      processLines (initState session_id) proc.stdout_lines = Except.ok st →
      st.result_obj = some rf → proc.waited = WaitOutcome.exited 0 →
      pyFalsy ((dictGet rf ("result")).getD (Json.str (""))) = true →
      (run cfg prompt session_id file_paths proc).1.text =
        Json.str ("(Claude returned an empty response)")) := by
  refine ⟨rfl, rfl, ?_⟩
  intro st rf h1 h2 h3 h4 h5
  simp only [run, run_streaming, h1, h2, h4]
  rw [if_neg (by omega : ¬ ((0 : Int) ≠ 0)), h3]
  dsimp only
  rw [if_pos h5]

/-- Witness for C4: a clean exit whose only stream line is a result
event with an empty `result` field yields the placeholder text, not a
synthesis of assistant fragments. -/
theorem c4_run_delegates_witness :
    (run cfgDefault ("hi") none none
        ⟨none, [resEmptyLineW], "", WaitOutcome.exited 0⟩).1.text =
      Json.str ("(Claude returned an empty response)") :=
  (c4_run_delegates cfgDefault ("hi") none none
    ⟨none, [resEmptyLineW], "", WaitOutcome.exited 0⟩).2.2
    { tool_calls := [],
      result_obj := some [(("type"), Json.str ("result")),
        (("result"), Json.str ("")), (("session_id"), Json.str ("s"))],
      final_session_id := Json.str ("s") }
    [(("type"), Json.str ("result")), (("result"), Json.str ("")),
      (("session_id"), Json.str ("s"))]
    rfl rfl rfl rfl rfl

/-- C8 counterexample: for the `Task` tool a present description is
NOT truncated to 40 characters — a 50-character description comes back
whole (57-character summary), where the claim requires the 47-character
`"Agent: " ++ description[:40]`. -/
theorem c8_task_untruncated_counterexample :
    _summarize_tool (Json.str ("Task"))
        (Json.obj [(("description"), Json.str dStr)]) =
      Except.ok ("Agent: " ++ dStr) ∧
    ("Agent: " ++ dStr).length = 57 ∧
    ("Agent: " ++ dStr) ≠ ("Agent: " ++ pyTake dStr 40) := by
  refine ⟨rfl, by decide, by decide⟩

/-- C8 (amended): `_summarize_tool` is pure; for any unmapped tool name
it returns the raw tool name, totally in the argument value (even a
non-dict); for `Task` it returns `"Agent: "` followed by the
description unchanged when a string description is present (the prompt,
if present, must be a string because its slicing is evaluated eagerly),
and otherwise by the prompt truncated to 40 characters. -/
theorem c8_summarize_contract :
    (∀ s : String, ∀ input : Json, s ∉ mappedToolNames →
      _summarize_tool (Json.str s) input = Except.ok s) ∧
    (∀ fs : List (String × Json), ∀ d : String,
      dictGet fs ("description") = some (Json.str d) →
      (dictGet fs ("prompt")) = none ∨ (∃ p, dictGet fs ("prompt") = some (Json.str p)) →
      _summarize_tool (Json.str ("Task")) (Json.obj fs) = Except.ok ("Agent: " ++ d)) ∧
    (∀ fs : List (String × Json), ∀ p : String,
      dictGet fs ("description") = none →
      dictGet fs ("prompt") = some (Json.str p) →
      _summarize_tool (Json.str ("Task")) (Json.obj fs) =
        Except.ok ("Agent: " ++ pyTake p 40)) := by
  refine ⟨?_, ?_, ?_⟩
  · intro s input h
    simp only [mappedToolNames, List.mem_cons, List.not_mem_nil, or_false, not_or] at h
    obtain ⟨n1, n2, n3, n4, n5, n6, n7, n8, n9, n10⟩ := h
    simp only [_summarize_tool, summarizeStr,
      if_neg n1, if_neg n2, if_neg n3, if_neg n4, if_neg n5,
      if_neg n6, if_neg n7, if_neg n8, if_neg n9, if_neg n10]
  · intro fs d hd hp
    rcases hp with hp | ⟨p, hp⟩
    all_goals simp only [_summarize_tool, summarizeStr, getField, hd, hp]
    all_goals rfl
  · intro fs p hd hp
    simp only [_summarize_tool, summarizeStr, getField, hd, hp]
    rfl

/-- Witness for C8: the unmapped tool name `FooTool` is returned raw
even with a non-dict argument value. -/
theorem c8_summarize_contract_witness :
    ("FooTool" ∉ mappedToolNames) ∧
    _summarize_tool (Json.str ("FooTool")) Json.null = Except.ok ("FooTool") :=
  ⟨by decide, c8_summarize_contract.1 ("FooTool") Json.null (by decide)⟩

end PB
